import Mathlib

/-!
Verification of the activity synchronization and webhook-processing pipeline
of the strava-club-hub repository, as a shallow embedding in Lean 4.

The embedding models:
- the Deduplication Ingest (`addSingleActivityToSheet`, Triggers.js),
- the Remote Activity Client (`StravaService.getAthleteActivities` and
  `StravaService.getActivityById`, Strava.js), with its HTTP world modelled
  as a scripted environment (a list of HTTP responses consumed in order and
  a list of token-refresh outcomes consumed in order),
- the Sync Orchestrator (`syncActivitiesForUser`, Triggers.js),
- the Batch Queue drain (`processActivitySyncQueue` and
  `enqueueUsersForSync`, Triggers.js),
- the Webhook Event Router (`doPost`, `processStravaEvent`,
  `handleActivityEvent`, `handleAthleteEvent`, Webhook.js), over an
  application state holding the activity table, the user table, the
  last-webhook timestamp, the cache-validity flag and the sync-trigger flag.

Activity ids are modelled as `Option Nat` (`none` = a missing `id` field);
the source normalizes ids through JavaScript `String(...)` before comparing,
which on numeric ids coincides with equality of the numbers, so id
comparisons are embedded as equality on `Option Nat`.  Instants are
modelled as integer milliseconds since the epoch.
-/

namespace StravaClubHub

/-! ## Configuration constants (Constants.js) -/

/-- `STRAVA_SETTINGS.ALLOWED_ACTIVITY_TYPES` from Constants.js. -/
def ALLOWED_ACTIVITY_TYPES : List String := ["Swim"]

/-- `STRAVA_SETTINGS.ALLOWED_VISIBILITY` from Constants.js. -/
def ALLOWED_VISIBILITY : List String := ["everyone", "followers_only"]

/-- `ACTIVITY_QUEUE.MAX_USERS_PER_RUN` from Constants.js. -/
def MAX_USERS_PER_RUN : Nat := 5

/-- `ACTIVITY_QUEUE.UPDATE_INTERVAL_HOURS` from Constants.js. -/
def UPDATE_INTERVAL_HOURS : Nat := 4

/-! ## Data model -/

/-- An activity record as it flows through the pipeline and is stored in the
Activities sheet.  `athlete` models the nested `activity.athlete.id`
reference of a raw Strava payload; `athlete_id` the flattened scalar column
written by the ingest. -/
structure Activity where
  id : Option Nat
  type : String
  visibility : String
  distance : Int
  athlete : Option Nat
  athlete_id : Option Nat
deriving DecidableEq

instance : Inhabited Activity := ⟨⟨none, "", "", 0, none, none⟩⟩

/-- A user record in the Database sheet (the fields the sync pipeline
reads).  `lastUpdated` is the last-synced instant in epoch milliseconds,
`none` when the user has never synced. -/
structure User where
  id : Nat
  lastUpdated : Option Nat
  accessToken : Option String
  refreshToken : Option String
deriving DecidableEq

/-! ## Deduplication Ingest (`addSingleActivityToSheet`, Triggers.js 96-129) -/

/-- JavaScript truthiness of the `id` field: `!activityObject.id` rejects a
missing id and the (falsy) numeric id `0`. -/
def idTruthy (o : Option Nat) : Bool :=
  match o with
  | none => false
  | some n => n != 0

/-- The `preparedActivity` built before appending: the activity with the
nested `athlete.id` reference flattened into the scalar `athlete_id` field
(`athlete ? athlete.id : null`). -/
def prepareActivity (a : Activity) : Activity :=
  { a with athlete_id := a.athlete }

/-- `addSingleActivityToSheet(activityObject)` from Triggers.js: reject if
the id is falsy, reject if the type is not allowed, reject if the
visibility is not allowed, reject if a stored record already carries the
same id, otherwise append the prepared record.  Returns the new store and
the `wasAdded` boolean. -/
def addSingleActivityToSheet (store : List Activity) (a : Activity) :
    List Activity × Bool :=
  if !(idTruthy a.id) then (store, false)
  else if !(ALLOWED_ACTIVITY_TYPES.contains a.type) then (store, false)
  else if !(ALLOWED_VISIBILITY.contains a.visibility) then (store, false)
  else if store.any (fun s => s.id == a.id) then (store, false)
  else (store ++ [prepareActivity a], true)

/-- Number of stored records whose remote id equals `i`. -/
def countId (store : List Activity) (i : Nat) : Nat :=
  store.countP (fun s => s.id == some i)

/-! ### Lemmas about the ingest -/

theorem countId_append (l₁ l₂ : List Activity) (i : Nat) :
    countId (l₁ ++ l₂) i = countId l₁ i + countId l₂ i := by
  simp [countId, List.countP_append]

theorem countId_eq_zero_iff (store : List Activity) (i : Nat) :
    countId store i = 0 ↔ ∀ s ∈ store, s.id ≠ some i := by
  simp [countId, List.countP_eq_zero]

theorem any_id_eq_true_iff (store : List Activity) (i : Nat) :
    store.any (fun s => s.id == some i) = true ↔ ∃ s ∈ store, s.id = some i := by
  simp [List.any_eq_true]

theorem countId_pos_of_any (store : List Activity) (i : Nat)
    (h : store.any (fun s => s.id == some i) = true) : 0 < countId store i := by
  rw [any_id_eq_true_iff] at h
  obtain ⟨s, hs, hid⟩ := h
  simp only [countId]
  exact List.countP_pos_iff.mpr ⟨s, hs, by simp [hid]⟩

theorem countId_eq_zero_of_not_any (store : List Activity) (i : Nat)
    (h : store.any (fun s => s.id == some i) = false) : countId store i = 0 := by
  rw [countId_eq_zero_iff]
  intro s hs hid
  have : store.any (fun s => s.id == some i) = true :=
    (any_id_eq_true_iff store i).mpr ⟨s, hs, hid⟩
  simp [this] at h

theorem addSingle_allowed_new (store : List Activity) (a : Activity) (i : Nat)
    (hid : a.id = some i) (hi : i ≠ 0)
    (ht : a.type ∈ ALLOWED_ACTIVITY_TYPES)
    (hv : a.visibility ∈ ALLOWED_VISIBILITY)
    (hnew : store.any (fun s => s.id == some i) = false) :
    addSingleActivityToSheet store a = (store ++ [prepareActivity a], true) := by
  simp [addSingleActivityToSheet, idTruthy, hid, hi, ht, hv, hnew]

theorem addSingle_allowed_dup (store : List Activity) (a : Activity) (i : Nat)
    (hid : a.id = some i) (hi : i ≠ 0)
    (ht : a.type ∈ ALLOWED_ACTIVITY_TYPES)
    (hv : a.visibility ∈ ALLOWED_VISIBILITY)
    (hdup : store.any (fun s => s.id == some i) = true) :
    addSingleActivityToSheet store a = (store, false) := by
  simp [addSingleActivityToSheet, idTruthy, hid, hi, ht, hv, hdup]

theorem prepareActivity_id (a : Activity) : (prepareActivity a).id = a.id := rfl

theorem prepareActivity_distance (a : Activity) :
    (prepareActivity a).distance = a.distance := rfl

/-- Claim C1 — Ingest is idempotent and preserves per-ID uniqueness: for an
activity `a` with a (truthy) id `i`, an allowed type and an allowed
visibility, starting from any store satisfying the per-ID uniqueness
invariant (at most one stored record with id `i`), calling
`addSingleActivityToSheet` twice leaves exactly one stored record with id
`i`, the second call returns `false`, and the first call returns `true`
when `i` was not already stored. -/
theorem ingest_idempotent (store : List Activity) (a : Activity) (i : Nat)
    (hid : a.id = some i) (hi : i ≠ 0)
    (ht : a.type ∈ ALLOWED_ACTIVITY_TYPES)
    (hv : a.visibility ∈ ALLOWED_VISIBILITY)
    (hinv : countId store i ≤ 1) :
    countId (addSingleActivityToSheet
      (addSingleActivityToSheet store a).1 a).1 i = 1 ∧
    (addSingleActivityToSheet (addSingleActivityToSheet store a).1 a).2 = false ∧
    (countId store i = 0 → (addSingleActivityToSheet store a).2 = true) := by
  by_cases hany : store.any (fun s => s.id == some i) = true
  · have hcount : countId store i = 1 :=
      Nat.le_antisymm hinv (countId_pos_of_any store i hany)
    have h1 : addSingleActivityToSheet store a = (store, false) :=
      addSingle_allowed_dup store a i hid hi ht hv hany
    refine ⟨?_, ?_, ?_⟩
    · rw [h1]
      simp only [addSingle_allowed_dup store a i hid hi ht hv hany]
      exact hcount
    · rw [h1]
      simp only [addSingle_allowed_dup store a i hid hi ht hv hany]
    · intro h0
      rw [hcount] at h0
      exact absurd h0 one_ne_zero
  · have hany₀ : store.any (fun s => s.id == some i) = false :=
      Bool.eq_false_iff.mpr hany
    have h1 : addSingleActivityToSheet store a =
        (store ++ [prepareActivity a], true) :=
      addSingle_allowed_new store a i hid hi ht hv hany₀
    have hmem : (store ++ [prepareActivity a]).any
        (fun s => s.id == some i) = true := by
      rw [any_id_eq_true_iff]
      exact ⟨prepareActivity a, by simp, by rw [prepareActivity_id, hid]⟩
    have h2 : addSingleActivityToSheet (store ++ [prepareActivity a]) a =
        (store ++ [prepareActivity a], false) :=
      addSingle_allowed_dup _ a i hid hi ht hv hmem
    refine ⟨?_, ?_, ?_⟩
    · rw [h1]
      simp only [h2]
      rw [countId_append, countId_eq_zero_of_not_any store i hany₀]
      simp [countId, List.countP_cons, prepareActivity_id, hid]
    · rw [h1]
      simp only [h2]
    · intro _
      rw [h1]

/-- Witness for C1 at a concrete input: a fresh Swim activity ingested
twice into the empty store. -/
theorem ingest_idempotent_witness :
    countId (addSingleActivityToSheet
      (addSingleActivityToSheet []
        ⟨some 7, "Swim", "everyone", 1500, some 3, none⟩).1
      ⟨some 7, "Swim", "everyone", 1500, some 3, none⟩).1 7 = 1 ∧
    (addSingleActivityToSheet (addSingleActivityToSheet []
        ⟨some 7, "Swim", "everyone", 1500, some 3, none⟩).1
      ⟨some 7, "Swim", "everyone", 1500, some 3, none⟩).2 = false ∧
    (countId [] 7 = 0 →
      (addSingleActivityToSheet []
        ⟨some 7, "Swim", "everyone", 1500, some 3, none⟩).2 = true) :=
  ingest_idempotent [] ⟨some 7, "Swim", "everyone", 1500, some 3, none⟩ 7
    rfl (by decide) (by decide) (by decide) (by decide)

/-- Claim C2 — Filtered activities are never persisted: for every activity
whose type is not allowed or whose visibility is not allowed,
`addSingleActivityToSheet` returns `false` and leaves the store unchanged,
regardless of whether the activity's id is already present. -/
theorem filtered_never_persisted (store : List Activity) (a : Activity)
    (h : a.type ∉ ALLOWED_ACTIVITY_TYPES ∨
         a.visibility ∉ ALLOWED_VISIBILITY) :
    addSingleActivityToSheet store a = (store, false) := by
  rcases h with h | h
  · by_cases hid : idTruthy a.id = true
    · simp [addSingleActivityToSheet, hid, h]
    · simp [addSingleActivityToSheet, Bool.eq_false_iff.mpr hid]
  · by_cases hid : idTruthy a.id = true
    · by_cases ht : a.type ∈ ALLOWED_ACTIVITY_TYPES
      · simp [addSingleActivityToSheet, hid, ht, h]
      · simp [addSingleActivityToSheet, hid, ht]
    · simp [addSingleActivityToSheet, Bool.eq_false_iff.mpr hid]

/-- Witness for C2 at a concrete input: a Run activity (type not allowed)
whose id is already stored is rejected without touching the store. -/
theorem filtered_never_persisted_witness :
    addSingleActivityToSheet [⟨some 9, "Swim", "everyone", 100, none, none⟩]
      ⟨some 9, "Run", "everyone", 100, none, none⟩ =
      ([⟨some 9, "Swim", "everyone", 100, none, none⟩], false) :=
  filtered_never_persisted _ _ (Or.inl (by decide))

/-! ## Remote Activity Client (Strava.js)

The HTTP world is a scripted environment: `listResponses` (resp.
`activityResponses`) are the responses the remote API returns to successive
`UrlFetchApp.fetch` calls of `getAthleteActivities` (resp.
`getActivityById`), consumed in order; `refreshResults` are the outcomes of
successive `refreshAccessToken` calls (`some newToken` on success, `none`
on failure), consumed in order.  Each result records how many HTTP requests
and how many token refreshes the call performed. -/

/-- An HTTP response to the activity-list endpoint: status code and parsed
body. -/
structure ListResponse where
  code : Nat
  body : List Activity
deriving DecidableEq

/-- An HTTP response to the single-activity endpoint. -/
structure ActResponse where
  code : Nat
  body : Activity
deriving DecidableEq

/-- The scripted environment of a Remote Activity Client call. -/
structure FetchEnv where
  storedAccessToken : Option String
  refreshResults : List (Option String)
  listResponses : List ListResponse
  activityResponses : List ActResponse
deriving DecidableEq

/-- Outcome of `getAthleteActivities`: the returned value (`none` embeds the
JavaScript `null` failure return) plus the request and refresh counts. -/
structure FetchOutList where
  result : Option (List Activity)
  httpRequests : Nat
  tokenRefreshes : Nat
deriving DecidableEq

/-- Outcome of `getActivityById`. -/
structure FetchOutAct where
  result : Option Activity
  httpRequests : Nat
  tokenRefreshes : Nat
deriving DecidableEq

/-- The `n`-th HTTP response the activity-list endpoint returns in this
environment (defaulting to a status-0 response when the script is
exhausted; a status of 0 is treated as a terminal failure). -/
def nthListResponse (env : FetchEnv) (n : Nat) : ListResponse :=
  env.listResponses.getD n ⟨0, []⟩

/-- The `n`-th HTTP response the single-activity endpoint returns. -/
def nthActResponse (env : FetchEnv) (n : Nat) : ActResponse :=
  env.activityResponses.getD n ⟨0, default⟩

/-- The outcome of the `n`-th token refresh attempted in this environment
(`none` both for a scripted failure and past the end of the script). -/
def nthRefresh (env : FetchEnv) (n : Nat) : Option String :=
  env.refreshResults.getD n none

/-- The final filtering step of `getAthleteActivities` (Strava.js 114-123):
`if (activities && activities.length > 0)` return the activities whose type
is in `ALLOWED_ACTIVITY_TYPES`, else return the empty array.  Note the
source filters by type only. -/
def filterFetched (acts : List Activity) : List Activity :=
  if acts.isEmpty then []
  else acts.filter (fun a => ALLOWED_ACTIVITY_TYPES.contains a.type)

/-- The part of `getAthleteActivities` after a token is in hand
(Strava.js 87-124): first request; on 200 parse the list; on 401 refresh
once and, if the refresh succeeded, retry once, keeping the retry body only
on 200; on any other status return `null`.  `k` counts refreshes already
performed while acquiring the initial token. -/
def getAthleteActivitiesBody (env : FetchEnv) (k : Nat) : FetchOutList :=
  let r0 := nthListResponse env 0
  if r0.code = 200 then ⟨some (filterFetched r0.body), 1, k⟩
  else if r0.code = 401 then
    match nthRefresh env k with
    | none => ⟨some (filterFetched []), 1, k + 1⟩
    | some _ =>
      let r1 := nthListResponse env 1
      if r1.code = 200 then ⟨some (filterFetched r1.body), 2, k + 1⟩
      else ⟨some (filterFetched []), 2, k + 1⟩
  else ⟨none, 1, k⟩

/-- `StravaService.getAthleteActivities` (Strava.js 74-124): acquire the
stored access token, refreshing once if absent (a failed refresh is a
`null` return with no request made), then run the request body. -/
def getAthleteActivities (env : FetchEnv) : FetchOutList :=
  match env.storedAccessToken with
  | some _ => getAthleteActivitiesBody env 0
  | none =>
    match nthRefresh env 0 with
    | none => ⟨none, 0, 1⟩
    | some _ => getAthleteActivitiesBody env 1

/-- The part of `StravaService.getActivityById` after a token is in hand
(Strava.js 146-175): first request; on 401 refresh once and, if the
refresh succeeded, replace the response by one retry; then a single final
check returns the body on 200 and `null` otherwise. -/
def getActivityByIdBody (env : FetchEnv) (k : Nat) : FetchOutAct :=
  let r0 := nthActResponse env 0
  let s1 : ActResponse × Nat × Nat :=
    if r0.code = 401 then
      match nthRefresh env k with
      | none => (r0, 1, k + 1)
      | some _ => (nthActResponse env 1, 2, k + 1)
    else (r0, 1, k)
  if s1.1.code = 200 then ⟨some s1.1.body, s1.2.1, s1.2.2⟩
  else ⟨none, s1.2.1, s1.2.2⟩

/-- `StravaService.getActivityById` (Strava.js 133-175). -/
def getActivityById (env : FetchEnv) : FetchOutAct :=
  match env.storedAccessToken with
  | some _ => getActivityByIdBody env 0
  | none =>
    match nthRefresh env 0 with
    | none => ⟨none, 0, 1⟩
    | some _ => getActivityByIdBody env 1

theorem filterFetched_eq_filter (acts : List Activity) :
    filterFetched acts =
      acts.filter (fun a => ALLOWED_ACTIVITY_TYPES.contains a.type) := by
  cases acts <;> simp [filterFetched]

/-- The concrete fetched activity refuting C3: an allowed type with a
disallowed visibility. -/
def onlyMeSwim : Activity := ⟨some 7, "Swim", "only_me", 1500, some 3, none⟩

/-- The scripted environment refuting C3: the stored token is valid and the
remote API answers 200 with a single activity of allowed type but
disallowed visibility. -/
def envC3 : FetchEnv := ⟨some "tok", [], [⟨200, [onlyMeSwim]⟩], []⟩

/-- Counterexample to C3 as stated: `getAthleteActivities` returns an
activity whose visibility is not in the allowed-visibility set — the fetch
filters by activity type only. -/
theorem fetch_keeps_disallowed_visibility :
    (getAthleteActivities envC3).result = some [onlyMeSwim] ∧
    onlyMeSwim.visibility ∉ ALLOWED_VISIBILITY := by
  exact ⟨rfl, by decide⟩

/-- Claim C3 (amended) — on a successful (200) first response,
`getAthleteActivities` returns exactly the fetched activities whose type is
in the allowed-type set; visibility is not consulted at fetch time (it is
enforced later by the ingest): an activity is in the returned list iff it
was fetched and has an allowed type. -/
theorem fetch_filters_by_type (env : FetchEnv) (t : String) (acts : List Activity)
    (htok : env.storedAccessToken = some t)
    (hresp : nthListResponse env 0 = ⟨200, acts⟩) :
    (getAthleteActivities env).result =
      some (acts.filter (fun a => ALLOWED_ACTIVITY_TYPES.contains a.type)) ∧
    ∀ a, a ∈ (getAthleteActivities env).result.getD [] ↔
      (a ∈ acts ∧ a.type ∈ ALLOWED_ACTIVITY_TYPES) := by
  have hbody : getAthleteActivities env = getAthleteActivitiesBody env 0 := by
    simp [getAthleteActivities, htok]
  have hres : getAthleteActivitiesBody env 0 =
      ⟨some (filterFetched acts), 1, 0⟩ := by
    simp [getAthleteActivitiesBody, hresp]
  rw [hbody, hres, filterFetched_eq_filter]
  refine ⟨rfl, ?_⟩
  intro a
  simp [List.mem_filter]

/-- Witness for the amended C3 at a concrete input: a 200 response holding
one Swim and one Run; only the Swim is returned. -/
theorem fetch_filters_by_type_witness :
    (getAthleteActivities
      ⟨some "tok", [], [⟨200, [⟨some 1, "Swim", "everyone", 100, none, none⟩,
        ⟨some 2, "Run", "everyone", 100, none, none⟩]⟩], []⟩).result =
      some ([⟨some 1, "Swim", "everyone", 100, none, none⟩,
        ⟨some 2, "Run", "everyone", 100, none, none⟩].filter
          (fun a => ALLOWED_ACTIVITY_TYPES.contains a.type)) ∧
    ∀ a, a ∈ (getAthleteActivities
      ⟨some "tok", [], [⟨200, [⟨some 1, "Swim", "everyone", 100, none, none⟩,
        ⟨some 2, "Run", "everyone", 100, none, none⟩]⟩], []⟩).result.getD [] ↔
      (a ∈ [⟨some 1, "Swim", "everyone", 100, none, none⟩,
        ⟨some 2, "Run", "everyone", 100, none, none⟩] ∧
       a.type ∈ ALLOWED_ACTIVITY_TYPES) :=
  fetch_filters_by_type _ "tok" _ rfl rfl

/-- The scripted environment refuting C4 as stated: a valid stored token, a
401 first response, a successful refresh, and a failing (500) retry. -/
def envC4 : FetchEnv := ⟨some "tok", [some "tok2"], [⟨401, []⟩, ⟨500, []⟩], []⟩

/-- Counterexample to C4 as stated: when the 401-retry of the activity-list
fetch fails, the call does perform exactly one refresh and one retry, but
it returns the empty activity list (`some []`) — a normal return,
indistinguishable from "no activities" — not the `null` terminal Failure
the claim demands. -/
theorem list_retry_failure_returns_empty :
    (getAthleteActivities envC4).result = some [] ∧
    (getAthleteActivities envC4).result ≠ none ∧
    (getAthleteActivities envC4).httpRequests = 2 ∧
    (getAthleteActivities envC4).tokenRefreshes = 1 := by
  refine ⟨rfl, by decide, rfl, rfl⟩

/-- Claim C4 (amended) — 401-retry-once discipline, with the corrected
failure value for the list fetch.  With a stored access token:
(1) a non-200, non-401 first response is a terminal `null` Failure with no
retry and no refresh, for both the list fetch and the single-activity
fetch; (2) a 401 first response triggers exactly one token refresh, and
exactly one retry when that refresh succeeds (no retry when it fails) —
never a second refresh or a third request; (3) if the retry of the list
fetch is not a 200, the call returns the empty list (not the `null`
Failure); (4) if the retry of the single-activity fetch is not a 200, the
call is a terminal `null` Failure. -/
theorem retry_once_discipline (env : FetchEnv) (t : String)
    (htok : env.storedAccessToken = some t) :
    ((nthListResponse env 0).code ≠ 200 →
     (nthListResponse env 0).code ≠ 401 →
     getAthleteActivities env = ⟨none, 1, 0⟩) ∧
    ((nthActResponse env 0).code ≠ 200 →
     (nthActResponse env 0).code ≠ 401 →
     getActivityById env = ⟨none, 1, 0⟩) ∧
    ((nthListResponse env 0).code = 401 →
     (getAthleteActivities env).tokenRefreshes = 1 ∧
     (getAthleteActivities env).httpRequests =
       (if (nthRefresh env 0).isSome then 2 else 1)) ∧
    ((nthListResponse env 0).code = 401 →
     (nthRefresh env 0).isSome →
     (nthListResponse env 1).code ≠ 200 →
     (getAthleteActivities env).result = some []) ∧
    ((nthActResponse env 0).code = 401 →
     (getActivityById env).tokenRefreshes = 1 ∧
     (getActivityById env).httpRequests =
       (if (nthRefresh env 0).isSome then 2 else 1)) ∧
    ((nthActResponse env 0).code = 401 →
     (nthRefresh env 0).isSome →
     (nthActResponse env 1).code ≠ 200 →
     (getActivityById env).result = none) := by
  have hl : getAthleteActivities env = getAthleteActivitiesBody env 0 := by
    simp [getAthleteActivities, htok]
  have ha : getActivityById env = getActivityByIdBody env 0 := by
    simp [getActivityById, htok]
  rw [hl, ha]
  refine ⟨?_, ?_, ?_, ?_, ?_, ?_⟩
  · intro h200 h401
    simp [getAthleteActivitiesBody, h200, h401]
  · intro h200 h401
    simp [getActivityByIdBody, h401, h200]
  · intro h401
    have h200 : ¬ (nthListResponse env 0).code = 200 := by
      rw [h401]; decide
    cases hr : nthRefresh env 0 with
    | none => simp [getAthleteActivitiesBody, h200, h401, hr]
    | some tk =>
      by_cases h1 : (nthListResponse env 1).code = 200 <;>
        simp [getAthleteActivitiesBody, h200, h401, hr, h1]
  · intro h401 hsome h1
    have h200 : ¬ (nthListResponse env 0).code = 200 := by
      rw [h401]; decide
    cases hr : nthRefresh env 0 with
    | none => rw [hr] at hsome; simp at hsome
    | some tk =>
      simp [getAthleteActivitiesBody, h200, h401, hr, h1, filterFetched]
  · intro h401
    cases hr : nthRefresh env 0 with
    | none => simp [getActivityByIdBody, h401, hr]
    | some tk =>
      by_cases h1 : (nthActResponse env 1).code = 200 <;>
        simp [getActivityByIdBody, h401, hr, h1]
  · intro h401 hsome h1
    cases hr : nthRefresh env 0 with
    | none => rw [hr] at hsome; simp at hsome
    | some tk => simp [getActivityByIdBody, h401, hr, h1]

/-- Witness for the amended C4 at a concrete input: stored token present,
first responses are 500 (list) and 404 (single activity). -/
theorem retry_once_discipline_witness :
    getAthleteActivities ⟨some "tok", [], [⟨500, []⟩], [⟨404, default⟩]⟩ =
      ⟨none, 1, 0⟩ ∧
    getActivityById ⟨some "tok", [], [⟨500, []⟩], [⟨404, default⟩]⟩ =
      ⟨none, 1, 0⟩ := by
  have h := retry_once_discipline
    ⟨some "tok", [], [⟨500, []⟩], [⟨404, default⟩]⟩ "tok" rfl
  exact ⟨h.1 (by decide) (by decide), h.2.1 (by decide) (by decide)⟩

/-! ## Sync Orchestrator (`syncActivitiesForUser`, Triggers.js 142-190) -/

/-- `DatabaseService.getUserData(userId)`: look the user up by id. -/
def findUser (users : List User) (uid : Nat) : Option User :=
  users.find? (fun u => u.id == uid)

/-- `DatabaseService.updateUserData(userId, { ...user, lastUpdated })` as
used by the sync and webhook paths: set the user's last-synced instant. -/
def updateUserLastUpdated (users : List User) (uid : Nat) (nowMs : Nat) :
    List User :=
  users.map (fun u => if u.id = uid then { u with lastUpdated := some nowMs }
    else u)

/-- The per-activity ingest loop of `syncActivitiesForUser` (Triggers.js
176-180): ingest each fetched activity, tracking whether any was added. -/
def ingestAll (store : List Activity) (acts : List Activity) :
    List Activity × Bool :=
  acts.foldl (fun pr a =>
    ((addSingleActivityToSheet pr.1 a).1,
      pr.2 || (addSingleActivityToSheet pr.1 a).2)) (store, false)

/-- The environment of one sync call: the Remote Activity Client as a
function of (userId, afterTimestamp, beforeTimestamp), `none` embedding the
`null` failure return, and the current instant. -/
structure SyncEnv where
  fetch : Nat → Int → Int → Option (List Activity)
  nowMs : Nat

/-- The persisted state a sync call reads and writes: the user table and
the activity table. -/
structure SyncState where
  users : List User
  activities : List Activity
deriving DecidableEq

/-- Outcome of one sync call: the resulting state, the returned boolean,
and whether a remote fetch was performed. -/
structure SyncOut where
  state : SyncState
  ret : Bool
  fetched : Bool
deriving DecidableEq

/-- The throttle test of Triggers.js 151-157: true when the user has a
last-synced instant and `(now - lastUpdated) / 3600000 <
UPDATE_INTERVAL_HOURS` (exact real division compared against the integer
bound, which is equivalent to the strict integer inequality below). -/
def underUpdateInterval (nowMs : Nat) (lastUpdated : Option Nat) : Bool :=
  match lastUpdated with
  | none => false
  | some lu =>
    decide ((nowMs : Int) - (lu : Int) <
      (UPDATE_INTERVAL_HOURS : Int) * 3600000)

/-- The part of `syncActivitiesForUser` from the lookback computation on
(Triggers.js 159-189): widen the window to 30 days for a never-synced
user, fetch, treat a failed or empty fetch as "nothing to do", ingest each
activity, and on any addition update the user's last-synced instant. -/
def syncFetchPhase (env : SyncEnv) (st : SyncState) (userId : Nat)
    (user : User) (daysToSync : Nat) : SyncOut :=
  let actualDaysToSync : Int := if user.lastUpdated.isNone then 30
    else daysToSync
  let lookbackSeconds : Int := actualDaysToSync * 24 * 60 * 60
  let afterTimestamp : Int := (env.nowMs : Int) / 1000 - lookbackSeconds
  let beforeTimestamp : Int := (env.nowMs : Int) / 1000
  match env.fetch userId afterTimestamp beforeTimestamp with
  | none => ⟨st, false, true⟩
  | some newActivities =>
    if newActivities.isEmpty then ⟨st, false, true⟩
    else
      let pr := ingestAll st.activities newActivities
      if pr.2 then
        ⟨⟨updateUserLastUpdated st.users userId env.nowMs, pr.1⟩, true, true⟩
      else ⟨⟨st.users, pr.1⟩, false, true⟩

/-- `syncActivitiesForUser(userId, forceSync, sheetLog, daysToSync)` from
Triggers.js: unknown user is a no-op `false`; unless `forceSync`, a user
synced less than `UPDATE_INTERVAL_HOURS` ago is a no-op `false` with no
fetch; otherwise run the fetch-and-ingest phase. -/
def syncActivitiesForUser (env : SyncEnv) (st : SyncState) (userId : Nat)
    (forceSync : Bool) (daysToSync : Nat) : SyncOut :=
  match findUser st.users userId with
  | none => ⟨st, false, false⟩
  | some user =>
    if !forceSync && underUpdateInterval env.nowMs user.lastUpdated then
      ⟨st, false, false⟩
    else syncFetchPhase env st userId user daysToSync

theorem syncFetchPhase_fetched (env : SyncEnv) (st : SyncState)
    (userId : Nat) (user : User) (d : Nat) :
    (syncFetchPhase env st userId user d).fetched = true := by
  simp only [syncFetchPhase]
  split
  · rfl
  · split
    · rfl
    · split <;> rfl

/-- Claim C5 — Sync throttling: for a user whose last-synced instant is
less than `UPDATE_INTERVAL_HOURS` (4 hours) before now,
`syncActivitiesForUser` with `forceSync = false` returns `false` without
performing a remote fetch and without mutating any state, while the same
call with `forceSync = true` performs the remote fetch. -/
theorem sync_throttle (env : SyncEnv) (st : SyncState) (uid : Nat)
    (user : User) (lu : Nat) (d : Nat)
    (hfind : findUser st.users uid = some user)
    (hlu : user.lastUpdated = some lu)
    (hrecent : (env.nowMs : Int) - (lu : Int) <
      (UPDATE_INTERVAL_HOURS : Int) * 3600000) :
    syncActivitiesForUser env st uid false d = ⟨st, false, false⟩ ∧
    (syncActivitiesForUser env st uid true d).fetched = true := by
  have hunder : underUpdateInterval env.nowMs user.lastUpdated = true := by
    simp [underUpdateInterval, hlu]
    exact hrecent
  constructor
  · simp [syncActivitiesForUser, hfind, hunder]
  · simp [syncActivitiesForUser, hfind, syncFetchPhase_fetched]

/-- Witness for C5 at a concrete input: one user last synced at instant 0,
now 1000 ms later, remote returning no activities. -/
theorem sync_throttle_witness :
    syncActivitiesForUser ⟨fun _ _ _ => some [], 1000⟩
      ⟨[⟨5, some 0, some "tok", none⟩], []⟩ 5 false 3 =
      ⟨⟨[⟨5, some 0, some "tok", none⟩], []⟩, false, false⟩ ∧
    (syncActivitiesForUser ⟨fun _ _ _ => some [], 1000⟩
      ⟨[⟨5, some 0, some "tok", none⟩], []⟩ 5 true 3).fetched = true :=
  sync_throttle ⟨fun _ _ _ => some [], 1000⟩
    ⟨[⟨5, some 0, some "tok", none⟩], []⟩ 5 ⟨5, some 0, some "tok", none⟩ 0 3
    rfl rfl (by decide)

/-! ## Webhook Event Router (Webhook.js) -/

/-- The `updates` object of an athlete webhook payload.  Strava delivers
`authorized` as the string `"false"` on deauthorization, which is what the
source compares against (`updates.authorized === 'false'`). -/
structure Updates where
  authorized : Option String
deriving DecidableEq

/-- A validated Strava webhook event payload. -/
structure StravaPayload where
  object_type : String
  aspect_type : String
  owner_id : Nat
  object_id : Nat
  updates : Option Updates
deriving DecidableEq

/-- The body of a POST from the proxy: the shared secret and the wrapped
Strava payload, each possibly missing. -/
structure PostData where
  secret : Option String
  strava_payload : Option StravaPayload
deriving DecidableEq

/-- The application state the webhook router reads and writes: the activity
table, the user table, the `LAST_WEBHOOK_TIMESTAMP` script property, the
activity-cache validity, whether the `processActivitySyncQueue` trigger is
armed, and a count of `addSingleActivityToSheet` calls (instrumentation for
the "never calls ingest" property). -/
structure AppState where
  activities : List Activity
  users : List User
  lastWebhookTimestamp : Option Nat
  activityCachesValid : Bool
  syncTriggerArmed : Bool
  ingestCalls : Nat
deriving DecidableEq

/-- The environment of a webhook invocation: the configured
`WORKER_SHARED_SECRET` script property, the Remote Activity Client's
single-activity fetch (as a function of activityId and ownerId), and the
current instant. -/
structure WebhookEnv where
  configSecret : Option String
  fetchActivityById : Nat → Nat → Option Activity
  nowMs : Nat

/-- The acknowledgment text `doPost` returns. -/
inductive DoPostResult where
  | success
  | authenticationFailed
  | errorProcessing (msg : String)
deriving DecidableEq

/-- `DatabaseService.getAccessToken(userId)` (part_002 130-133): the found
user's access token, else `null`. -/
def getAccessTokenFromUsers (users : List User) (uid : Nat) : Option String :=
  match findUser users uid with
  | some u => u.accessToken
  | none => none

/-- `SheetService.deleteObjectById` (ImportService.js 304-330) on the
Activities sheet: scan from the bottom row upwards and delete the first row
whose id matches, i.e. remove the last matching record. -/
def deleteObjectById (l : List Activity) (i : Nat) : List Activity :=
  (l.reverse.eraseP (fun s => s.id == some i)).reverse

/-- The shared create/update block of `handleActivityEvent` (Webhook.js
106-129): abort if no access token is on file for the owner, abort if the
single-activity fetch fails, ingest, and on a successful add update the
owner's last-synced instant, invalidate the activity caches and delete the
pending `processActivitySyncQueue` trigger. -/
def handleCreateBlock (env : WebhookEnv) (st : AppState)
    (owner_id object_id : Nat) : AppState :=
  match getAccessTokenFromUsers st.users owner_id with
  | none => st
  | some _ =>
    match env.fetchActivityById object_id owner_id with
    | none => st
    | some act =>
      let pr := addSingleActivityToSheet st.activities act
      if pr.2 then
        { st with
          activities := pr.1,
          ingestCalls := st.ingestCalls + 1,
          users := updateUserLastUpdated st.users owner_id env.nowMs,
          activityCachesValid := false,
          syncTriggerArmed := false }
      else { st with activities := pr.1, ingestCalls := st.ingestCalls + 1 }

/-- `handleActivityEvent(aspect_type, owner_id, object_id)` (Webhook.js
96-140): on `update` delete the stored record by id and fall through to the
create block; on `create` run the create block; on `delete` delete by id
and invalidate the caches; otherwise no-op. -/
def handleActivityEvent (env : WebhookEnv) (st : AppState) (aspect : String)
    (owner_id object_id : Nat) : AppState :=
  if aspect = "update" then
    handleCreateBlock env
      { st with activities := deleteObjectById st.activities object_id }
      owner_id object_id
  else if aspect = "create" then handleCreateBlock env st owner_id object_id
  else if aspect = "delete" then
    { st with
      activities := deleteObjectById st.activities object_id,
      activityCachesValid := false }
  else st

/-- Modelled from the spec: `DatabaseService.deauthorizeUser(owner_id)` is
called at Webhook.js 151 but is not defined anywhere in the repository
sources provided; the spec says "mark the user deauthorized (clear stored
tokens)", so it is modelled as clearing the stored access and refresh
tokens of the matching user. -/
def deauthorizeUser (users : List User) (uid : Nat) : List User :=
  users.map (fun u =>
    if u.id = uid then { u with accessToken := none, refreshToken := none }
    else u)

/-- `handleAthleteEvent(aspect_type, owner_id, updates)` (Webhook.js
148-153): deauthorize the user when the aspect is `update`, `updates` is
present (the `updates &&` short-circuit guards the field access) and
`updates.authorized` is the string `"false"`; otherwise do nothing. -/
def handleAthleteEvent (st : AppState) (aspect : String) (owner_id : Nat)
    (updates : Option Updates) : AppState :=
  if aspect = "update" then
    match updates with
    | none => st
    | some u =>
      if u.authorized = some "false" then
        { st with users := deauthorizeUser st.users owner_id }
      else st
  else st

/-- `processStravaEvent(payload)` (Webhook.js 70-88): dispatch on
`object_type`; unhandled object types are a no-op. -/
def processStravaEvent (env : WebhookEnv) (st : AppState)
    (p : StravaPayload) : AppState :=
  if p.object_type = "activity" then
    handleActivityEvent env st p.aspect_type p.owner_id p.object_id
  else if p.object_type = "athlete" then
    handleAthleteEvent st p.aspect_type p.owner_id p.updates
  else st

/-- `doPost(e)` (Webhook.js 13-64): a missing configured secret throws
(caught as the error acknowledgment); a secret mismatch returns
"Authentication Failed" before anything runs; a missing `strava_payload`
throws (caught as the error acknowledgment); otherwise the event is
processed and then the `LAST_WEBHOOK_TIMESTAMP` property is set, returning
"Success".  A thrown error reaches the catch block before the timestamp
assignment, so the state is returned as it was at the throw point. -/
def doPost (env : WebhookEnv) (st : AppState) (data : PostData) :
    AppState × DoPostResult :=
  match env.configSecret with
  | none => (st, .errorProcessing
      "CRITICAL: WORKER_SHARED_SECRET is not set in Script Properties.")
  | some ws =>
    if data.secret ≠ some ws then (st, .authenticationFailed)
    else
      match data.strava_payload with
      | none => (st, .errorProcessing
          "Authentication successful, but strava_payload was missing.")
      | some p =>
        let st1 := processStravaEvent env st p
        ({ st1 with lastWebhookTimestamp := some env.nowMs }, .success)

/-- Claim C7 — Webhook auth gate is atomic: with a configured secret, a
payload whose secret does not match returns the authentication-failure
result and leaves the whole state unchanged — activity table, user
records, last-webhook timestamp, and the ingest-call count (so ingest was
never called). -/
theorem webhook_auth_gate (env : WebhookEnv) (st : AppState)
    (data : PostData) (ws : String)
    (hcfg : env.configSecret = some ws)
    (hmismatch : data.secret ≠ some ws) :
    doPost env st data = (st, .authenticationFailed) := by
  simp [doPost, hcfg, hmismatch]

/-- Witness for C7 at a concrete input. -/
theorem webhook_auth_gate_witness :
    doPost ⟨some "shared", fun _ _ => none, 99⟩
      ⟨[], [], none, true, true, 0⟩ ⟨some "wrong", none⟩ =
      (⟨[], [], none, true, true, 0⟩, .authenticationFailed) :=
  webhook_auth_gate ⟨some "shared", fun _ _ => none, 99⟩
    ⟨[], [], none, true, true, 0⟩ ⟨some "wrong", none⟩ "shared" rfl
    (by decide)

/-- Counterexample to C8 as stated: an authenticated inbound event whose
processing throws (here: `strava_payload` missing, one of the
processing-error outcomes) returns the error acknowledgment without
updating the last-webhook timestamp, so not every inbound event updates
it. -/
theorem webhook_error_skips_timestamp :
    (doPost ⟨some "shared", fun _ _ => none, 99⟩
      ⟨[], [], none, true, true, 0⟩ ⟨some "shared", none⟩).1.lastWebhookTimestamp
      = none ∧
    (doPost ⟨some "shared", fun _ _ => none, 99⟩
      ⟨[], [], none, true, true, 0⟩ ⟨some "shared", none⟩).2 =
      .errorProcessing
        "Authentication successful, but strava_payload was missing." := by
  exact ⟨rfl, rfl⟩

/-- Claim C8 (amended) — every authenticated inbound event whose
`strava_payload` is present updates the process-wide last-webhook
timestamp, regardless of how its dispatch turns out (unhandled object
type, missing token, failed fetch, or success); an event that fails
authentication or whose processing throws (missing payload) does not
update it. -/
theorem webhook_updates_timestamp (env : WebhookEnv) (st : AppState)
    (data : PostData) (ws : String) (p : StravaPayload)
    (hcfg : env.configSecret = some ws)
    (hsecret : data.secret = some ws)
    (hpayload : data.strava_payload = some p) :
    (doPost env st data).1.lastWebhookTimestamp = some env.nowMs ∧
    (doPost env st data).2 = .success := by
  simp [doPost, hcfg, hsecret, hpayload]

/-- Witness for the amended C8 at a concrete input: an event with an
unhandled object type still updates the timestamp. -/
theorem webhook_updates_timestamp_witness :
    (doPost ⟨some "shared", fun _ _ => none, 99⟩
      ⟨[], [], none, true, true, 0⟩
      ⟨some "shared", some ⟨"unknown_type", "create", 1, 2, none⟩⟩).1.lastWebhookTimestamp
      = some 99 ∧
    (doPost ⟨some "shared", fun _ _ => none, 99⟩
      ⟨[], [], none, true, true, 0⟩
      ⟨some "shared", some ⟨"unknown_type", "create", 1, 2, none⟩⟩).2 =
      .success :=
  webhook_updates_timestamp ⟨some "shared", fun _ _ => none, 99⟩
    ⟨[], [], none, true, true, 0⟩
    ⟨some "shared", some ⟨"unknown_type", "create", 1, 2, none⟩⟩ "shared"
    ⟨"unknown_type", "create", 1, 2, none⟩ rfl rfl rfl

/-- Claim C9 — Athlete deauthorization: an athlete/update event whose
`updates.authorized` is the deauthorization value `"false"` clears the
stored tokens of every matching user; and an athlete/update event with no
`updates` object is handled without touching the state (the `updates &&`
short-circuit means the missing field is never read — no crash). -/
theorem athlete_deauthorization (st : AppState) (uid : Nat) (upd : Updates)
    (hauth : upd.authorized = some "false") :
    ((handleAthleteEvent st "update" uid (some upd)).users =
      deauthorizeUser st.users uid ∧
     ∀ u ∈ (handleAthleteEvent st "update" uid (some upd)).users,
       u.id = uid → u.accessToken = none ∧ u.refreshToken = none) ∧
    handleAthleteEvent st "update" uid none = st := by
  have hs : (handleAthleteEvent st "update" uid (some upd)).users =
      deauthorizeUser st.users uid := by
    simp [handleAthleteEvent, hauth]
  refine ⟨⟨hs, ?_⟩, ?_⟩
  · rw [hs]
    intro u hu huid
    simp only [deauthorizeUser, List.mem_map] at hu
    obtain ⟨v, _, hmap⟩ := hu
    by_cases hvid : v.id = uid
    · rw [if_pos hvid] at hmap
      rw [← hmap]
      exact ⟨rfl, rfl⟩
    · rw [if_neg hvid] at hmap
      rw [← hmap] at huid
      exact absurd huid hvid
  · simp [handleAthleteEvent]

/-- Witness for C9 at a concrete input: one authorized user, one event with
`authorized = "false"`. -/
theorem athlete_deauthorization_witness :
    ((handleAthleteEvent ⟨[], [⟨5, none, some "a", some "r"⟩], none, true,
        true, 0⟩ "update" 5 (some ⟨some "false"⟩)).users =
      deauthorizeUser [⟨5, none, some "a", some "r"⟩] 5 ∧
     ∀ u ∈ (handleAthleteEvent ⟨[], [⟨5, none, some "a", some "r"⟩], none,
        true, true, 0⟩ "update" 5 (some ⟨some "false"⟩)).users,
       u.id = 5 → u.accessToken = none ∧ u.refreshToken = none) ∧
    handleAthleteEvent ⟨[], [⟨5, none, some "a", some "r"⟩], none, true,
      true, 0⟩ "update" 5 none =
      ⟨[], [⟨5, none, some "a", some "r"⟩], none, true, true, 0⟩ :=
  athlete_deauthorization
    ⟨[], [⟨5, none, some "a", some "r"⟩], none, true, true, 0⟩ 5
    ⟨some "false"⟩ rfl

/-! ### Update-is-replace (C6) -/

theorem countId_reverse (l : List Activity) (i : Nat) :
    countId l.reverse i = countId l i := by
  simp [countId, List.countP_eq_length_filter, List.filter_reverse]

theorem countId_eraseP_of_one (l : List Activity) (i : Nat)
    (h : countId l i = 1) :
    countId (l.eraseP (fun s => s.id == some i)) i = 0 := by
  induction l with
  | nil => simp [countId] at h
  | cons a t ih =>
    rw [List.eraseP_cons]
    by_cases ha : a.id = some i
    · have hb : (a.id == some i) = true := by simp [ha]
      rw [hb, cond_true]
      simpa [countId, List.countP_cons, hb] using h
    · have hb : (a.id == some i) = false := by simp [ha]
      rw [hb, cond_false]
      have ht : countId t i = 1 := by
        simp only [countId, List.countP_cons, hb] at h
        simpa [countId] using h
      have h0 := ih ht
      simp only [countId, List.countP_cons, hb] at h0 ⊢
      simpa using h0

theorem countId_deleteObjectById_of_one (l : List Activity) (i : Nat)
    (h : countId l i = 1) :
    countId (deleteObjectById l i) i = 0 := by
  rw [deleteObjectById, countId_reverse]
  exact countId_eraseP_of_one l.reverse i ((countId_reverse l i).trans h)

theorem any_eq_false_of_countId_zero (l : List Activity) (i : Nat)
    (h : countId l i = 0) :
    l.any (fun s => s.id == some i) = false := by
  cases hany : l.any (fun s => s.id == some i) with
  | false => rfl
  | true =>
    have := countId_pos_of_any l i hany
    omega

/-- Claim C6 — Update-is-replace: starting from a state whose activity
table satisfies the per-ID invariant with exactly one record of id `X`,
handling an authenticated webhook event `{object_type: "activity",
aspect_type: "update", object_id: X}` whose remote fetch succeeds and
returns an allowed activity with id `X` and distance `D2` leaves exactly
one stored record with id `X`, and that record carries distance `D2`. -/
theorem update_is_replace (env : WebhookEnv) (st : AppState)
    (owner X : Nat) (upd : Option Updates) (A : Activity) (D2 : Int)
    (tok : String)
    (hX : X ≠ 0)
    (hcount : countId st.activities X = 1)
    (htok : getAccessTokenFromUsers st.users owner = some tok)
    (hfetch : env.fetchActivityById X owner = some A)
    (hAid : A.id = some X)
    (hAt : A.type ∈ ALLOWED_ACTIVITY_TYPES)
    (hAv : A.visibility ∈ ALLOWED_VISIBILITY)
    (hAd : A.distance = D2) :
    countId (processStravaEvent env st
      ⟨"activity", "update", owner, X, upd⟩).activities X = 1 ∧
    ∀ s ∈ (processStravaEvent env st
      ⟨"activity", "update", owner, X, upd⟩).activities,
      s.id = some X → s.distance = D2 := by
  have hdel : countId (deleteObjectById st.activities X) X = 0 :=
    countId_deleteObjectById_of_one st.activities X hcount
  have hany : (deleteObjectById st.activities X).any
      (fun s => s.id == some X) = false :=
    any_eq_false_of_countId_zero _ X hdel
  have hadd : addSingleActivityToSheet (deleteObjectById st.activities X) A =
      (deleteObjectById st.activities X ++ [prepareActivity A], true) :=
    addSingle_allowed_new _ A X hAid hX hAt hAv hany
  have hacts : (processStravaEvent env st
      ⟨"activity", "update", owner, X, upd⟩).activities =
      deleteObjectById st.activities X ++ [prepareActivity A] := by
    simp [processStravaEvent, handleActivityEvent, handleCreateBlock, htok,
      hfetch, hadd]
  rw [hacts]
  constructor
  · rw [countId_append, hdel]
    simp [countId, List.countP_cons, prepareActivity_id, hAid]
  · intro s hs hsid
    rcases List.mem_append.mp hs with hmem | hmem
    · exact absurd hsid ((countId_eq_zero_iff _ X).mp hdel s hmem)
    · have : s = prepareActivity A := by simpa using hmem
      rw [this, prepareActivity_distance, hAd]

/-- Witness for C6 at a concrete input: a stored record with id 42 and
distance 100 is replaced by the freshly fetched record with distance 2500.
-/
theorem update_is_replace_witness :
    countId (processStravaEvent
      ⟨some "s", fun _ _ => some ⟨some 42, "Swim", "everyone", 2500, some 9, none⟩, 77⟩
      ⟨[⟨some 42, "Swim", "everyone", 100, none, some 9⟩],
        [⟨9, none, some "tok", none⟩], none, true, true, 0⟩
      ⟨"activity", "update", 9, 42, none⟩).activities 42 = 1 ∧
    ∀ s ∈ (processStravaEvent
      ⟨some "s", fun _ _ => some ⟨some 42, "Swim", "everyone", 2500, some 9, none⟩, 77⟩
      ⟨[⟨some 42, "Swim", "everyone", 100, none, some 9⟩],
        [⟨9, none, some "tok", none⟩], none, true, true, 0⟩
      ⟨"activity", "update", 9, 42, none⟩).activities,
      s.id = some 42 → s.distance = 2500 :=
  update_is_replace
    ⟨some "s", fun _ _ => some ⟨some 42, "Swim", "everyone", 2500, some 9, none⟩, 77⟩
    ⟨[⟨some 42, "Swim", "everyone", 100, none, some 9⟩],
      [⟨9, none, some "tok", none⟩], none, true, true, 0⟩
    9 42 none ⟨some 42, "Swim", "everyone", 2500, some 9, none⟩ 2500 "tok"
    (by decide) (by decide) rfl rfl rfl (by decide) (by decide) rfl

/-! ## Batch Queue (`enqueueUsersForSync` / `processActivitySyncQueue`,
Triggers.js 10-88) -/

/-- The queue update of `enqueueUsersForSync(userIds)` (Triggers.js 19-25):
append each id not already in the queue, in order. -/
def enqueueUsersForSync (queue : List Nat) (userIds : List Nat) : List Nat :=
  userIds.foldl (fun q i => if q.contains i then q else q ++ [i]) queue

/-- The persisted state a drain reads and writes: the queue script
property, the set of all known user ids (`DatabaseService.getAllUsers`),
and whether the `processActivitySyncQueue` trigger exists. -/
structure QueueState where
  queue : List Nat
  users : List Nat
  triggerArmed : Bool
deriving DecidableEq

/-- Outcome of one drain: the persisted remaining queue, the ids processed
(in order), the aggregated `activitiesWereAdded` flag, the trigger state,
and whether the activity caches were invalidated. -/
structure DrainOut where
  queue : List Nat
  processed : List Nat
  anyAdded : Bool
  triggerArmed : Bool
  cachesInvalidated : Bool
deriving DecidableEq

/-- The batch step of `processActivitySyncQueue` (Triggers.js 65-81):
`queue.splice(0, MAX_USERS_PER_RUN)` removes and processes the first
`MAX_USERS_PER_RUN` ids; every popped user is synced (the per-user outcome
is the abstract `syncOutcome`), the remaining queue is persisted, and the
caches are invalidated iff any sync added something. -/
def processBatch (q : List Nat) (armed : Bool) (syncOutcome : Nat → Bool) :
    DrainOut :=
  let usersToProcess := q.take MAX_USERS_PER_RUN
  let remaining := q.drop MAX_USERS_PER_RUN
  let anyAdded := usersToProcess.any syncOutcome
  ⟨remaining, usersToProcess, anyAdded, armed, anyAdded⟩

/-- `processActivitySyncQueue()` (Triggers.js 39-88): no-op if the lock is
unavailable; if the queue is empty, refill it with all known user ids via
`enqueueUsersForSync` (which also re-arms the trigger) and, if it is still
empty, delete the trigger and exit; otherwise process a batch. -/
def processActivitySyncQueue (st : QueueState) (lockAvailable : Bool)
    (syncOutcome : Nat → Bool) : DrainOut :=
  if !lockAvailable then ⟨st.queue, [], false, st.triggerArmed, false⟩
  else if st.queue.isEmpty then
    let refilled := enqueueUsersForSync st.queue st.users
    if refilled.isEmpty then ⟨refilled, [], false, false, false⟩
    else processBatch refilled true syncOutcome
  else processBatch st.queue st.triggerArmed syncOutcome

/-- Claim C10 — A drain that acquires the lock removes exactly the first
`min(MAX_USERS_PER_RUN, length)` ids from the queue in FIFO order and
processes exactly those, regardless of the per-user sync outcomes (the
resulting queue and processed list are independent of `syncOutcome`, so a
failing user is not re-enqueued by the drain); the removed prefix plus the
persisted remainder reassemble the original queue; and a drain on an empty
queue first refills it with all known user ids (first occurrences, in
order) and then processes the first `MAX_USERS_PER_RUN` of those. -/
theorem queue_drain_fifo (st : QueueState) (f g : Nat → Bool) :
    (st.queue ≠ [] →
      (processActivitySyncQueue st true f).queue =
        st.queue.drop MAX_USERS_PER_RUN ∧
      (processActivitySyncQueue st true f).processed =
        st.queue.take MAX_USERS_PER_RUN ∧
      st.queue.take MAX_USERS_PER_RUN ++
        (processActivitySyncQueue st true f).queue = st.queue) ∧
    ((processActivitySyncQueue st true f).queue =
      (processActivitySyncQueue st true g).queue ∧
     (processActivitySyncQueue st true f).processed =
      (processActivitySyncQueue st true g).processed) ∧
    (st.queue = [] →
      (processActivitySyncQueue st true f).processed =
        (enqueueUsersForSync [] st.users).take MAX_USERS_PER_RUN ∧
      (processActivitySyncQueue st true f).queue =
        (enqueueUsersForSync [] st.users).drop MAX_USERS_PER_RUN) := by
  refine ⟨?_, ?_, ?_⟩
  · intro hne
    have hempty : st.queue.isEmpty = false := by
      simpa [List.isEmpty_iff] using hne
    simp [processActivitySyncQueue, hempty, processBatch,
      List.take_append_drop]
  · by_cases hq : st.queue.isEmpty
    · by_cases hr : (enqueueUsersForSync st.queue st.users).isEmpty
      · simp [processActivitySyncQueue, hq, hr]
      · simp [processActivitySyncQueue, hq, hr, processBatch]
    · simp [processActivitySyncQueue, hq, processBatch]
  · intro he
    obtain ⟨q, us, ar⟩ := st
    simp only at he
    subst he
    by_cases hr : enqueueUsersForSync [] us = []
    · simp [processActivitySyncQueue, hr]
    · simp [processActivitySyncQueue, hr, processBatch]

/-- Witness for C10 at a concrete input: the seven-user queue of the spec's
FIFO scenario; exactly the first five are processed and removed, whatever
the per-user outcomes. -/
theorem queue_drain_fifo_witness :
    (processActivitySyncQueue ⟨[1, 2, 3, 4, 5, 6, 7], [1, 2], true⟩ true
      (fun _ => false)).queue = [6, 7] ∧
    (processActivitySyncQueue ⟨[1, 2, 3, 4, 5, 6, 7], [1, 2], true⟩ true
      (fun _ => false)).processed = [1, 2, 3, 4, 5] := by
  have h := (queue_drain_fifo ⟨[1, 2, 3, 4, 5, 6, 7], [1, 2], true⟩
    (fun _ => false) (fun _ => true)).1 (by decide)
  exact ⟨h.1.trans (by decide), h.2.1.trans (by decide)⟩

end StravaClubHub
